import Mathlib

/-!
Shallow embedding of src/mutex.h (fluent-libc mutex_t API).

The header defines one struct, mutex_t, and four static inline functions:
mutex_init, mutex_lock, mutex_unlock, mutex_destroy.  Preprocessor
conditionals select one of three build configurations:

  * Windows with the SDK (_WIN32, FLUENT_LIBC_NO_WINDOWS_SDK undefined):
    mutex_t holds a CRITICAL_SECTION field cs; the functions forward to
    InitializeCriticalSection / EnterCriticalSection / LeaveCriticalSection /
    DeleteCriticalSection.
  * Windows without the SDK (_WIN32 and FLUENT_LIBC_NO_WINDOWS_SDK defined):
    mutex_t has no members; mutex_init returns -1 and the other three
    functions have empty bodies.
  * POSIX (everything else): mutex_t holds a pthread_mutex_t field mutex;
    the functions forward to pthread_mutex_init / pthread_mutex_lock /
    pthread_mutex_unlock / pthread_mutex_destroy.  mutex_init forwards the
    int returned by pthread_mutex_init; the other three wrappers discard
    the int returned by the native call (their C return type is void).

Each configuration is embedded separately below, one Lean definition per
preprocessor branch of each C function.  The native primitives are not part
of the repository; they are modelled from their documented platform
contracts (state of the object plus, for the fallible calls, an
environment-chosen outcome code).  A native handle carries an identity tag
uid standing for its address: the C code always operates on the same field
in place (&m->cs, &m->mutex), so no native operation changes the tag.
-/

/-- Lifecycle of a native synchronization object, as exposed by both the
CRITICAL_SECTION contract and the pthread_mutex_t contract: the backing
memory is uninitialized, or an initialized object that is currently
unlocked (locked = false) or held (locked = true), or destroyed. -/
inductive NativeLife where
  | uninitialized : NativeLife
  | initialized (locked : Bool) : NativeLife
  | destroyed : NativeLife
  deriving DecidableEq

/-- Model of a Windows CRITICAL_SECTION object: an identity tag (its
address, fixed for the lifetime of the enclosing struct) and its
lifecycle state. -/
structure CRITICAL_SECTION where
  uid : Nat
  life : NativeLife
  deriving DecidableEq

/-- Model of a POSIX pthread_mutex_t object: an identity tag (its address,
fixed for the lifetime of the enclosing struct) and its lifecycle state. -/
structure pthread_mutex_t where
  uid : Nat
  life : NativeLife
  deriving DecidableEq

/-- mutex_t in the Windows-with-SDK configuration (src/mutex.h lines 73-83):
a struct whose single member is a CRITICAL_SECTION named cs. -/
structure mutex_t_win where
  cs : CRITICAL_SECTION
  deriving DecidableEq

/-- mutex_t in the Windows-without-SDK configuration (src/mutex.h lines
73-83 with FLUENT_LIBC_NO_WINDOWS_SDK defined): a struct with no members. -/
structure mutex_t_nosdk where
  deriving DecidableEq

/-- mutex_t in the POSIX configuration (src/mutex.h lines 73-83): a struct
whose single member is a pthread_mutex_t named mutex. -/
structure mutex_t_posix where
  mutex : pthread_mutex_t
  deriving DecidableEq

/-- Model of the platform call InitializeCriticalSection: it returns void
(it has no failure outcome to report) and leaves the object initialized
and unlocked. -/
def InitializeCriticalSection (cs : CRITICAL_SECTION) : CRITICAL_SECTION :=
  { cs with life := NativeLife.initialized false }

/-- Model of the platform call EnterCriticalSection restricted to its
contract: on an initialized, unlocked critical section it acquires the
lock.  Outside the contract the behavior is undefined; the model leaves
the state unchanged, and every theorem below that depends on this branch
carries the corresponding precondition. -/
def EnterCriticalSection (cs : CRITICAL_SECTION) : CRITICAL_SECTION :=
  match cs.life with
  | NativeLife.initialized false => { cs with life := NativeLife.initialized true }
  | _ => cs

/-- Model of the platform call LeaveCriticalSection: on a held critical
section it releases the lock; outside the contract the behavior is
undefined (modelled as unchanged, see EnterCriticalSection). -/
def LeaveCriticalSection (cs : CRITICAL_SECTION) : CRITICAL_SECTION :=
  match cs.life with
  | NativeLife.initialized true => { cs with life := NativeLife.initialized false }
  | _ => cs

/-- Model of the platform call DeleteCriticalSection: on an initialized,
unlocked critical section it releases the native resources; outside the
contract the behavior is undefined (modelled as unchanged). -/
def DeleteCriticalSection (cs : CRITICAL_SECTION) : CRITICAL_SECTION :=
  match cs.life with
  | NativeLife.initialized false => { cs with life := NativeLife.destroyed }
  | _ => cs

/-- Model of the platform call pthread_mutex_init.  The parameter r is the
outcome chosen by the platform (0 on success, an error code such as
ENOMEM or EAGAIN on resource exhaustion).  On success the object becomes
initialized and unlocked; on failure the call reports r and the object is
not initialized (POSIX: the mutex is left in no usable state; the call
writes nothing observable). -/
def pthread_mutex_init (r : Int) (pm : pthread_mutex_t) : Int × pthread_mutex_t :=
  if r = 0 then (0, { pm with life := NativeLife.initialized false }) else (r, pm)

/-- Model of the platform call pthread_mutex_lock restricted to its
contract: on an initialized, unlocked mutex it acquires the lock and
returns 0.  Outside the contract the behavior of a default mutex is
undefined (modelled as an error return with the state unchanged). -/
def pthread_mutex_lock (pm : pthread_mutex_t) : Int × pthread_mutex_t :=
  match pm.life with
  | NativeLife.initialized false => (0, { pm with life := NativeLife.initialized true })
  | _ => (22, pm)

/-- Model of the platform call pthread_mutex_unlock: on a held mutex it
releases the lock and returns 0; outside the contract undefined
(modelled as an error return with the state unchanged). -/
def pthread_mutex_unlock (pm : pthread_mutex_t) : Int × pthread_mutex_t :=
  match pm.life with
  | NativeLife.initialized true => (0, { pm with life := NativeLife.initialized false })
  | _ => (1, pm)

/-- Model of the platform call pthread_mutex_destroy: on an initialized,
unlocked mutex it releases the native resources and returns 0; outside
the contract undefined (modelled as an error return, state unchanged). -/
def pthread_mutex_destroy (pm : pthread_mutex_t) : Int × pthread_mutex_t :=
  match pm.life with
  | NativeLife.initialized false => (0, { pm with life := NativeLife.destroyed })
  | _ => (16, pm)

/-- Observable outcome of one call to a C function of the API: ret is
some code when the C function's return type is int (mutex_init), and none
when it is void (mutex_lock, mutex_unlock, mutex_destroy); state is the
mutex object after the call. -/
structure CCall (σ : Type) where
  ret : Option Int
  state : σ

/-- mutex_init, Windows-with-SDK branch (src/mutex.h lines 91-104):
InitializeCriticalSection(&m->cs); return 0. -/
def mutex_init_win (m : mutex_t_win) : CCall mutex_t_win :=
  { ret := some 0, state := { cs := InitializeCriticalSection m.cs } }

/-- mutex_init, Windows-without-SDK branch (src/mutex.h lines 96-99):
return -1, touching nothing. -/
def mutex_init_nosdk (m : mutex_t_nosdk) : CCall mutex_t_nosdk :=
  { ret := some (-1), state := m }

/-- mutex_init, POSIX branch (src/mutex.h line 102):
return pthread_mutex_init(&m->mutex, NULL).  The parameter r is the
outcome of the native call (see pthread_mutex_init). -/
def mutex_init_posix (r : Int) (m : mutex_t_posix) : CCall mutex_t_posix :=
  { ret := some (pthread_mutex_init r m.mutex).1,
    state := { mutex := (pthread_mutex_init r m.mutex).2 } }

/-- mutex_lock, Windows-with-SDK branch (src/mutex.h line 116):
EnterCriticalSection(&m->cs); no return value. -/
def mutex_lock_win (m : mutex_t_win) : CCall mutex_t_win :=
  { ret := none, state := { cs := EnterCriticalSection m.cs } }

/-- mutex_lock, Windows-without-SDK branch (src/mutex.h lines 117-119):
empty body. -/
def mutex_lock_nosdk (m : mutex_t_nosdk) : CCall mutex_t_nosdk :=
  { ret := none, state := m }

/-- mutex_lock, POSIX branch (src/mutex.h line 121):
pthread_mutex_lock(&m->mutex); the int returned by the native call is
discarded (only the second component is kept). -/
def mutex_lock_posix (m : mutex_t_posix) : CCall mutex_t_posix :=
  { ret := none, state := { mutex := (pthread_mutex_lock m.mutex).2 } }

/-- mutex_unlock, Windows-with-SDK branch (src/mutex.h line 135):
LeaveCriticalSection(&m->cs); no return value. -/
def mutex_unlock_win (m : mutex_t_win) : CCall mutex_t_win :=
  { ret := none, state := { cs := LeaveCriticalSection m.cs } }

/-- mutex_unlock, Windows-without-SDK branch (src/mutex.h lines 136-138):
empty body. -/
def mutex_unlock_nosdk (m : mutex_t_nosdk) : CCall mutex_t_nosdk :=
  { ret := none, state := m }

/-- mutex_unlock, POSIX branch (src/mutex.h line 140):
pthread_mutex_unlock(&m->mutex); the native int is discarded. -/
def mutex_unlock_posix (m : mutex_t_posix) : CCall mutex_t_posix :=
  { ret := none, state := { mutex := (pthread_mutex_unlock m.mutex).2 } }

/-- mutex_destroy, Windows-with-SDK branch (src/mutex.h line 154):
DeleteCriticalSection(&m->cs); no return value. -/
def mutex_destroy_win (m : mutex_t_win) : CCall mutex_t_win :=
  { ret := none, state := { cs := DeleteCriticalSection m.cs } }

/-- mutex_destroy, Windows-without-SDK branch (src/mutex.h lines 155-157):
empty body. -/
def mutex_destroy_nosdk (m : mutex_t_nosdk) : CCall mutex_t_nosdk :=
  { ret := none, state := m }

/-- mutex_destroy, POSIX branch (src/mutex.h line 159):
pthread_mutex_destroy(&m->mutex); the native int is discarded. -/
def mutex_destroy_posix (m : mutex_t_posix) : CCall mutex_t_posix :=
  { ret := none, state := { mutex := (pthread_mutex_destroy m.mutex).2 } }

/-- The four operations of the public API, used to quantify over call
sequences. -/
inductive MutexOp where
  | op_init : MutexOp
  | op_lock : MutexOp
  | op_unlock : MutexOp
  | op_destroy : MutexOp
  deriving DecidableEq

/-- Effect of one API call on a Windows-without-SDK mutex_t: each of the
four functions leaves the struct as it was (mutex_init only returns -1;
the other three have empty bodies). -/
def nosdkApply : MutexOp → mutex_t_nosdk → mutex_t_nosdk
  | MutexOp.op_init, m => (mutex_init_nosdk m).state
  | MutexOp.op_lock, m => (mutex_lock_nosdk m).state
  | MutexOp.op_unlock, m => (mutex_unlock_nosdk m).state
  | MutexOp.op_destroy, m => (mutex_destroy_nosdk m).state

/-- Running a whole call sequence on a Windows-without-SDK mutex_t. -/
def nosdkRun : List MutexOp → mutex_t_nosdk → mutex_t_nosdk
  | [], m => m
  | o :: os, m => nosdkRun os (nosdkApply o m)

/-- Effect of one successful API call on a POSIX mutex_t (for mutex_init,
the native outcome is 0, the success case). -/
def posixApply : MutexOp → mutex_t_posix → mutex_t_posix
  | MutexOp.op_init, m => (mutex_init_posix 0 m).state
  | MutexOp.op_lock, m => (mutex_lock_posix m).state
  | MutexOp.op_unlock, m => (mutex_unlock_posix m).state
  | MutexOp.op_destroy, m => (mutex_destroy_posix m).state

/-- Stated precondition of each API call on a POSIX mutex_t: initialize
exactly once on a fresh mutex, lock only an initialized unlocked mutex,
unlock only a held mutex, destroy only an initialized unlocked mutex, and
never use a destroyed mutex. -/
def posixOpOk : MutexOp → mutex_t_posix → Bool
  | MutexOp.op_init, m => m.mutex.life == NativeLife.uninitialized
  | MutexOp.op_lock, m => m.mutex.life == NativeLife.initialized false
  | MutexOp.op_unlock, m => m.mutex.life == NativeLife.initialized true
  | MutexOp.op_destroy, m => m.mutex.life == NativeLife.initialized false

/-- Running a whole call sequence on a POSIX mutex_t. -/
def posixRun : List MutexOp → mutex_t_posix → mutex_t_posix
  | [], m => m
  | o :: os, m => posixRun os (posixApply o m)

/-- Whether a call sequence on a POSIX mutex_t respects the stated
preconditions at every step. -/
def posixValid : List MutexOp → mutex_t_posix → Bool
  | [], _ => true
  | o :: os, m => posixOpOk o m && posixValid os (posixApply o m)

/-- Effect of one API call on a Windows-with-SDK mutex_t. -/
def winApply : MutexOp → mutex_t_win → mutex_t_win
  | MutexOp.op_init, m => (mutex_init_win m).state
  | MutexOp.op_lock, m => (mutex_lock_win m).state
  | MutexOp.op_unlock, m => (mutex_unlock_win m).state
  | MutexOp.op_destroy, m => (mutex_destroy_win m).state

/-- Stated precondition of each API call on a Windows-with-SDK mutex_t
(same obligations as posixOpOk). -/
def winOpOk : MutexOp → mutex_t_win → Bool
  | MutexOp.op_init, m => m.cs.life == NativeLife.uninitialized
  | MutexOp.op_lock, m => m.cs.life == NativeLife.initialized false
  | MutexOp.op_unlock, m => m.cs.life == NativeLife.initialized true
  | MutexOp.op_destroy, m => m.cs.life == NativeLife.initialized false

/-- Running a whole call sequence on a Windows-with-SDK mutex_t. -/
def winRun : List MutexOp → mutex_t_win → mutex_t_win
  | [], m => m
  | o :: os, m => winRun os (winApply o m)

/-- Whether a call sequence on a Windows-with-SDK mutex_t respects the
stated preconditions at every step. -/
def winValid : List MutexOp → mutex_t_win → Bool
  | [], _ => true
  | o :: os, m => winOpOk o m && winValid os (winApply o m)

/-- Modelled from the spec: the four abstract lifecycle states of the
state machine of section 4.1. -/
inductive LifeState where
  | Uninitialized : LifeState
  | Ready : LifeState
  | Locked : LifeState
  | Destroyed : LifeState
  deriving DecidableEq

/-- Modelled from the spec: the transition table of the state machine
"Uninitialized -> Ready (post-initialize) -> (Locked <-> Ready) (via
lock/unlock) -> Destroyed (post-destroy, terminal)"; none marks the
absence of an edge. -/
def specStep : LifeState → MutexOp → Option LifeState
  | LifeState.Uninitialized, MutexOp.op_init => some LifeState.Ready
  | LifeState.Ready, MutexOp.op_lock => some LifeState.Locked
  | LifeState.Locked, MutexOp.op_unlock => some LifeState.Ready
  | LifeState.Ready, MutexOp.op_destroy => some LifeState.Destroyed
  | _, _ => none

/-- Modelled from the spec: running a call sequence through the abstract
state machine, failing if some call has no edge. -/
def specRun : List MutexOp → LifeState → Option LifeState
  | [], a => some a
  | o :: os, a =>
      match specStep a o with
      | some b => specRun os b
      | none => none

/-- Abstraction from the lifecycle of the native handle to the spec's
state machine states. -/
def absLife : NativeLife → LifeState
  | NativeLife.uninitialized => LifeState.Uninitialized
  | NativeLife.initialized false => LifeState.Ready
  | NativeLife.initialized true => LifeState.Locked
  | NativeLife.destroyed => LifeState.Destroyed

/-- Program position of one thread running the loop body
"mutex_lock(&m); counter = counter + 1; mutex_unlock(&m);" in the POSIX
configuration.  The shared-counter increment is non-atomic: the thread
first reads the counter (loaded v records the value read) and then writes
v + 1, so that a lost update is expressible when the lock is absent. -/
inductive Phase where
  | idle : Phase
  | locked : Phase
  | loaded (v : Nat) : Phase
  | written : Phase
  deriving DecidableEq

/-- Global state of n threads sharing one mutex and one counter: owner is
the thread currently holding the native mutex (none when free), counter
is the shared counter, phase i the position of thread i in the loop body,
and done i how many full iterations thread i has completed. -/
structure CState (n : Nat) where
  owner : Option (Fin n)
  counter : Nat
  phase : Fin n → Phase
  done : Fin n → Nat

/-- Interleaving semantics of n threads each running the loop body up to M
times.  The lock step embeds mutex_lock (POSIX branch): the native
pthread_mutex_lock blocks until the mutex is free, so the step is enabled
only when owner = none and it makes the caller the owner.  The unlock
step embeds mutex_unlock: the native pthread_mutex_unlock releases the
mutex.  The read and write steps are the two halves of the non-atomic
increment between the two calls. -/
inductive CStep (n M : Nat) : CState n → CState n → Prop where
  | lock (i : Fin n) (s : CState n) (h1 : s.phase i = Phase.idle)
      (h2 : s.done i < M) (h3 : s.owner = none) :
      CStep n M s { s with owner := some i,
                           phase := Function.update s.phase i Phase.locked }
  | read (i : Fin n) (s : CState n) (h1 : s.phase i = Phase.locked) :
      CStep n M s { s with phase := Function.update s.phase i (Phase.loaded s.counter) }
  | write (i : Fin n) (v : Nat) (s : CState n) (h1 : s.phase i = Phase.loaded v) :
      CStep n M s { s with counter := v + 1,
                           phase := Function.update s.phase i Phase.written }
  | unlock (i : Fin n) (s : CState n) (h1 : s.phase i = Phase.written) :
      CStep n M s { s with owner := none,
                           phase := Function.update s.phase i Phase.idle,
                           done := Function.update s.done i (s.done i + 1) }

/-- Initial state: mutex free (just initialized), counter 0, every thread
idle with no completed iteration. -/
def initCState (n : Nat) : CState n :=
  { owner := none, counter := 0, phase := fun _ => Phase.idle, done := fun _ => 0 }

/-- States reachable by any interleaving of the n threads. -/
def CReach (n M : Nat) (s : CState n) : Prop :=
  Relation.ReflTransGen (CStep n M) (initCState n) s

/-- Terminal state: every thread is back at idle having completed its M
iterations. -/
def CTerminal (n M : Nat) (s : CState n) : Prop :=
  ∀ i, s.phase i = Phase.idle ∧ s.done i = M

/-- Contribution of a thread's phase to the counter bookkeeping: 1 once
the thread has written its increment but not yet finished the iteration. -/
def phaseWr : Phase → Nat
  | Phase.written => 1
  | _ => 0

/-- Inductive invariant of the interleaving semantics: a thread inside
the critical section is the owner of the mutex; a thread that has read
the counter read its current value; and the counter equals the completed
iterations plus the pending written increments. -/
def CInv (n : Nat) (s : CState n) : Prop :=
  (∀ i, s.phase i ≠ Phase.idle → s.owner = some i)
  ∧ (∀ i v, s.phase i = Phase.loaded v → v = s.counter)
  ∧ s.counter = ∑ j, (s.done j + phaseWr (s.phase j))

/-- Concrete POSIX mutex values used to instantiate the theorems below. -/
def pm0 : pthread_mutex_t :=
  { uid := 0, life := NativeLife.uninitialized }

/-- A fresh (uninitialized) POSIX mutex_t. -/
def mp0 : mutex_t_posix :=
  { mutex := pm0 }

/-- A fresh (uninitialized) Windows mutex_t. -/
def mw0 : mutex_t_win :=
  { cs := { uid := 0, life := NativeLife.uninitialized } }

/-- The full lifecycle call sequence used as a concrete witness. -/
def lifeOps : List MutexOp :=
  [MutexOp.op_init, MutexOp.op_lock, MutexOp.op_unlock, MutexOp.op_destroy]

/-- Concrete run of one thread doing one iteration, state 0: initial. -/
def c1s0 : CState 1 := initCState 1

/-- Concrete run, state 1: thread 0 acquired the mutex. -/
def c1s1 : CState 1 :=
  { c1s0 with owner := some 0, phase := Function.update c1s0.phase 0 Phase.locked }

/-- Concrete run, state 2: thread 0 read the counter. -/
def c1s2 : CState 1 :=
  { c1s1 with phase := Function.update c1s1.phase 0 (Phase.loaded c1s1.counter) }

/-- Concrete run, state 3: thread 0 wrote the incremented counter. -/
def c1s3 : CState 1 :=
  { c1s2 with counter := c1s1.counter + 1,
              phase := Function.update c1s2.phase 0 Phase.written }

/-- Concrete run, state 4: thread 0 released the mutex, iteration done. -/
def c1s4 : CState 1 :=
  { c1s3 with owner := none,
              phase := Function.update c1s3.phase 0 Phase.idle,
              done := Function.update c1s3.done 0 (c1s3.done 0 + 1) }

/-- C2: in the Windows build with FLUENT_LIBC_NO_WINDOWS_SDK defined,
every call to mutex_init, on every mutex, returns the same nonzero
failure status -1; it never returns success in that configuration. -/
theorem spec_C2 :
    ∀ m : mutex_t_nosdk, (mutex_init_nosdk m).ret = some (-1) ∧ ((-1 : Int) ≠ 0) := by
  intro m
  exact ⟨rfl, by decide⟩

/-- C3: mutex_init returns a nonzero error code whenever the underlying
platform initialization call fails.  The POSIX branch forwards the
outcome r of pthread_mutex_init unchanged, so a failing outcome (r ≠ 0)
is returned as-is and is nonzero.  (In the Windows-with-SDK branch the
native call InitializeCriticalSection returns void and has no failure
outcome to report, so the property holds there vacuously.) -/
theorem spec_C3 (r : Int) (m : mutex_t_posix) (hr : r ≠ 0) :
    (mutex_init_posix r m).ret = some r ∧ (mutex_init_posix r m).ret ≠ some 0 := by
  constructor
  · simp [mutex_init_posix, pthread_mutex_init, hr]
  · simp [mutex_init_posix, pthread_mutex_init, hr]

/-- Witness for C3 at the concrete failing outcome 12 (ENOMEM) on a fresh
mutex. -/
theorem spec_C3_witness :
    (mutex_init_posix 12 mp0).ret = some 12 ∧ (mutex_init_posix 12 mp0).ret ≠ some 0 :=
  spec_C3 12 mp0 (by decide)

/-- C4: only initialize is fallible.  In all three build configurations
mutex_init returns an int status code (some code in the embedding), while
mutex_lock, mutex_unlock and mutex_destroy have C return type void and
surface no error to the caller (ret = none) for every mutex value; in the
POSIX branches the int returned by the native lock/unlock/destroy call is
discarded by the wrapper. -/
theorem spec_C4 :
    ∀ (r : Int) (mp : mutex_t_posix) (mw : mutex_t_win) (mn : mutex_t_nosdk),
    ((mutex_init_posix r mp).ret = some r
      ∧ (mutex_init_win mw).ret = some 0
      ∧ (mutex_init_nosdk mn).ret = some (-1))
    ∧ ((mutex_lock_posix mp).ret = none
      ∧ (mutex_unlock_posix mp).ret = none
      ∧ (mutex_destroy_posix mp).ret = none)
    ∧ ((mutex_lock_win mw).ret = none
      ∧ (mutex_unlock_win mw).ret = none
      ∧ (mutex_destroy_win mw).ret = none)
    ∧ ((mutex_lock_nosdk mn).ret = none
      ∧ (mutex_unlock_nosdk mn).ret = none
      ∧ (mutex_destroy_nosdk mn).ret = none) := by
  intro r mp mw mn
  refine ⟨⟨?_, rfl, rfl⟩, ⟨rfl, rfl, rfl⟩, ⟨rfl, rfl, rfl⟩, ⟨rfl, rfl, rfl⟩⟩
  by_cases hr : r = 0
  · simp [mutex_init_posix, pthread_mutex_init, hr]
  · simp [mutex_init_posix, pthread_mutex_init, hr]

/-- C5: on every build configuration with a backing primitive, mutex_init
on a fresh mutex returns 0 when the backing primitive initializes
successfully: the Windows-with-SDK branch always returns 0, and the POSIX
branch returns 0 when pthread_mutex_init succeeds (outcome 0). -/
theorem spec_C5 :
    (∀ m : mutex_t_win, (mutex_init_win m).ret = some 0)
    ∧ (∀ m : mutex_t_posix, (mutex_init_posix 0 m).ret = some 0) := by
  constructor
  · intro m; rfl
  · intro m; simp [mutex_init_posix, pthread_mutex_init]

/-- C7: in the Windows build with FLUENT_LIBC_NO_WINDOWS_SDK defined,
mutex_lock is a no-op: its body is empty, so for every mutex it returns
(no return value, hence never blocks) and leaves the mutex unchanged. -/
theorem spec_C7 :
    ∀ m : mutex_t_nosdk, (mutex_lock_nosdk m).state = m ∧ (mutex_lock_nosdk m).ret = none := by
  intro m
  exact ⟨rfl, rfl⟩

/-- C9: in the Windows build with FLUENT_LIBC_NO_WINDOWS_SDK defined,
mutex_unlock and mutex_destroy are also no-ops, and in any call order
(any sequence of API calls, including unlock without a prior lock and
repeated destroy) the mutex is left entirely unchanged. -/
theorem spec_C9 :
    (∀ m : mutex_t_nosdk,
      (mutex_unlock_nosdk m).state = m ∧ (mutex_unlock_nosdk m).ret = none
      ∧ (mutex_destroy_nosdk m).state = m ∧ (mutex_destroy_nosdk m).ret = none)
    ∧ (∀ (ops : List MutexOp) (m : mutex_t_nosdk), nosdkRun ops m = m) := by
  constructor
  · intro m
    exact ⟨rfl, rfl, rfl, rfl⟩
  · intro ops
    induction ops with
    | nil => intro m; rfl
    | cons o os ih =>
        intro m
        have h : nosdkApply o m = m := by cases o <;> rfl
        calc nosdkRun (o :: os) m = nosdkRun os (nosdkApply o m) := rfl
          _ = nosdkRun os m := by rw [h]
          _ = m := ih m

/-- C10: when mutex_init returns a nonzero failure status, the mutex it
was given is left unchanged.  The Windows-without-SDK branch returns -1
without touching the struct, and the POSIX branch on a failing
pthread_mutex_init outcome (r ≠ 0) leaves the mutex as it was. -/
theorem spec_C10 :
    (∀ m : mutex_t_nosdk, (mutex_init_nosdk m).state = m)
    ∧ (∀ (r : Int) (m : mutex_t_posix), r ≠ 0 → (mutex_init_posix r m).state = m) := by
  constructor
  · intro m; rfl
  · intro r m hr
    simp [mutex_init_posix, pthread_mutex_init, hr]

/-- Witness for C10 at the concrete failing outcome 12 on a fresh mutex. -/
theorem spec_C10_witness :
    ((12 : Int) ≠ 0) ∧ (mutex_init_posix 12 mp0).state = mp0 :=
  ⟨by decide, spec_C10.2 12 mp0 (by decide)⟩

/-- Helper for C8: no POSIX API call changes the identity tag of the
backing pthread_mutex_t (the C code always operates in place on
&m->mutex). -/
theorem posixApply_uid (o : MutexOp) (m : mutex_t_posix) :
    (posixApply o m).mutex.uid = m.mutex.uid := by
  rcases m with ⟨⟨u, l⟩⟩
  cases o <;> cases l <;>
    first
    | rfl
    | (rename_i b; cases b <;> rfl)

/-- Helper for C8: no Windows API call changes the identity tag of the
backing CRITICAL_SECTION (the C code always operates in place on
&m->cs). -/
theorem winApply_uid (o : MutexOp) (m : mutex_t_win) :
    (winApply o m).cs.uid = m.cs.uid := by
  rcases m with ⟨⟨u, l⟩⟩
  cases o <;> cases l <;>
    first
    | rfl
    | (rename_i b; cases b <;> rfl)

/-- C8: mutex_t wraps exactly one native synchronization primitive and
nothing else.  First, the struct is determined by its single
platform-selected handle (pthread_mutex_t member mutex on POSIX,
CRITICAL_SECTION member cs on Windows).  Second, every operation acts
only on that handle: each wrapper's resulting handle is exactly the
corresponding native call applied to the input handle.  Third, the same
handle backs the mutex for its entire lifetime: no sequence of API calls
changes the handle's identity tag. -/
theorem spec_C8 :
    (∀ m : mutex_t_posix, m = mutex_t_posix.mk m.mutex)
    ∧ (∀ m : mutex_t_win, m = mutex_t_win.mk m.cs)
    ∧ (∀ (r : Int) (m : mutex_t_posix),
        (mutex_init_posix r m).state.mutex = (pthread_mutex_init r m.mutex).2
        ∧ (mutex_lock_posix m).state.mutex = (pthread_mutex_lock m.mutex).2
        ∧ (mutex_unlock_posix m).state.mutex = (pthread_mutex_unlock m.mutex).2
        ∧ (mutex_destroy_posix m).state.mutex = (pthread_mutex_destroy m.mutex).2)
    ∧ (∀ m : mutex_t_win,
        (mutex_init_win m).state.cs = InitializeCriticalSection m.cs
        ∧ (mutex_lock_win m).state.cs = EnterCriticalSection m.cs
        ∧ (mutex_unlock_win m).state.cs = LeaveCriticalSection m.cs
        ∧ (mutex_destroy_win m).state.cs = DeleteCriticalSection m.cs)
    ∧ (∀ (ops : List MutexOp) (m : mutex_t_posix),
        (posixRun ops m).mutex.uid = m.mutex.uid)
    ∧ (∀ (ops : List MutexOp) (m : mutex_t_win),
        (winRun ops m).cs.uid = m.cs.uid) := by
  refine ⟨fun m => rfl, fun m => rfl,
    fun r m => ⟨rfl, rfl, rfl, rfl⟩, fun m => ⟨rfl, rfl, rfl, rfl⟩, ?_, ?_⟩
  · intro ops
    induction ops with
    | nil => intro m; rfl
    | cons o os ih =>
        intro m
        calc (posixRun (o :: os) m).mutex.uid
            = (posixRun os (posixApply o m)).mutex.uid := rfl
          _ = (posixApply o m).mutex.uid := ih (posixApply o m)
          _ = m.mutex.uid := posixApply_uid o m
  · intro ops
    induction ops with
    | nil => intro m; rfl
    | cons o os ih =>
        intro m
        calc (winRun (o :: os) m).cs.uid
            = (winRun os (winApply o m)).cs.uid := rfl
          _ = (winApply o m).cs.uid := ih (winApply o m)
          _ = m.cs.uid := winApply_uid o m

/-- Helper for C6: one in-contract POSIX API call moves the abstract
lifecycle state along exactly the spec's state machine edge. -/
theorem posixStep_sim (o : MutexOp) (m : mutex_t_posix) (h : posixOpOk o m = true) :
    specStep (absLife m.mutex.life) o = some (absLife (posixApply o m).mutex.life) := by
  rcases m with ⟨⟨u, l⟩⟩
  cases o <;> cases l <;>
    simp_all [posixOpOk, posixApply, mutex_init_posix, pthread_mutex_init,
      mutex_lock_posix, pthread_mutex_lock, mutex_unlock_posix, pthread_mutex_unlock,
      mutex_destroy_posix, pthread_mutex_destroy, absLife, specStep]

/-- Helper for C6: one in-contract Windows API call moves the abstract
lifecycle state along exactly the spec's state machine edge. -/
theorem winStep_sim (o : MutexOp) (m : mutex_t_win) (h : winOpOk o m = true) :
    specStep (absLife m.cs.life) o = some (absLife (winApply o m).cs.life) := by
  rcases m with ⟨⟨u, l⟩⟩
  cases o <;> cases l <;>
    simp_all [winOpOk, winApply, mutex_init_win, InitializeCriticalSection,
      mutex_lock_win, EnterCriticalSection, mutex_unlock_win, LeaveCriticalSection,
      mutex_destroy_win, DeleteCriticalSection, absLife, specStep]

/-- Helper for C6: a precondition-respecting POSIX call sequence is
tracked, call by call, by the spec's state machine. -/
theorem posixRun_sim :
    ∀ (ops : List MutexOp) (m : mutex_t_posix), posixValid ops m = true →
    specRun ops (absLife m.mutex.life) = some (absLife (posixRun ops m).mutex.life) := by
  intro ops
  induction ops with
  | nil => intro m _; rfl
  | cons o os ih =>
      intro m h
      rw [posixValid, Bool.and_eq_true] at h
      have hs := posixStep_sim o m h.1
      calc specRun (o :: os) (absLife m.mutex.life)
          = specRun os (absLife (posixApply o m).mutex.life) := by
            rw [specRun, hs]
        _ = some (absLife (posixRun os (posixApply o m)).mutex.life) :=
            ih (posixApply o m) h.2
        _ = some (absLife (posixRun (o :: os) m).mutex.life) := rfl

/-- Helper for C6: a precondition-respecting Windows call sequence is
tracked, call by call, by the spec's state machine. -/
theorem winRun_sim :
    ∀ (ops : List MutexOp) (m : mutex_t_win), winValid ops m = true →
    specRun ops (absLife m.cs.life) = some (absLife (winRun ops m).cs.life) := by
  intro ops
  induction ops with
  | nil => intro m _; rfl
  | cons o os ih =>
      intro m h
      rw [winValid, Bool.and_eq_true] at h
      have hs := winStep_sim o m h.1
      calc specRun (o :: os) (absLife m.cs.life)
          = specRun os (absLife (winApply o m).cs.life) := by
            rw [specRun, hs]
        _ = some (absLife (winRun os (winApply o m)).cs.life) :=
            ih (winApply o m) h.2
        _ = some (absLife (winRun (o :: os) m).cs.life) := rfl

/-- C6: every sequence of operations on a mutex that respects the stated
preconditions follows the state machine Uninitialized -> Ready ->
(Locked <-> Ready) -> Destroyed: in both the POSIX and the
Windows-with-SDK configuration, the abstract lifecycle of the mutex is
tracked by the spec's transition table at every call.  Destroyed is
terminal: no call on a destroyed mutex respects the preconditions, and
the spec machine has no edge out of Destroyed, so in particular no
precondition-respecting operation ever transitions a Destroyed mutex
back to Ready. -/
theorem spec_C6 :
    (∀ (ops : List MutexOp) (m : mutex_t_posix), posixValid ops m = true →
      specRun ops (absLife m.mutex.life) = some (absLife (posixRun ops m).mutex.life))
    ∧ (∀ (ops : List MutexOp) (m : mutex_t_win), winValid ops m = true →
      specRun ops (absLife m.cs.life) = some (absLife (winRun ops m).cs.life))
    ∧ (∀ (o : MutexOp) (m : mutex_t_posix),
        m.mutex.life = NativeLife.destroyed → posixOpOk o m = false)
    ∧ (∀ (o : MutexOp) (m : mutex_t_win),
        m.cs.life = NativeLife.destroyed → winOpOk o m = false)
    ∧ (∀ o : MutexOp, specStep LifeState.Destroyed o = none) := by
  refine ⟨posixRun_sim, winRun_sim, ?_, ?_, ?_⟩
  · intro o m h
    cases o <;> simp [posixOpOk, h]
  · intro o m h
    cases o <;> simp [winOpOk, h]
  · intro o
    cases o <;> rfl

/-- Witness for C6: the full lifecycle sequence init, lock, unlock,
destroy on a fresh POSIX mutex respects the preconditions and is tracked
by the spec machine. -/
theorem spec_C6_witness :
    specRun lifeOps (absLife mp0.mutex.life)
      = some (absLife (posixRun lifeOps mp0).mutex.life) :=
  spec_C6.1 lifeOps mp0 (by decide)

/-- Helper for C1: the invariant holds initially. -/
theorem cinv_init (n : Nat) : CInv n (initCState n) := by
  refine ⟨fun i h => absurd rfl h, fun i v h => by simp [initCState] at h, ?_⟩
  simp [initCState, phaseWr]

/-- Helper for C1: the invariant is preserved by every interleaving step. -/
theorem cinv_step {n M : Nat} {s t : CState n} (hs : CStep n M s t) (h : CInv n s) :
    CInv n t := by
  obtain ⟨hown, hload, hcount⟩ := h
  cases hs with
  | lock i s h1 h2 h3 =>
      refine ⟨?_, ?_, ?_⟩
      · intro j hj
        replace hj : Function.update s.phase i Phase.locked j ≠ Phase.idle := hj
        show some i = some j
        by_cases hij : j = i
        · subst hij; rfl
        · exfalso
          rw [Function.update_noteq hij] at hj
          have h4 := hown j hj
          rw [h3] at h4
          exact Option.noConfusion h4
      · intro j v hjv
        replace hjv : Function.update s.phase i Phase.locked j = Phase.loaded v := hjv
        show v = s.counter
        by_cases hij : j = i
        · subst hij
          rw [Function.update_same] at hjv
          exact Phase.noConfusion hjv
        · rw [Function.update_noteq hij] at hjv
          exact hload j v hjv
      · show s.counter = ∑ j, (s.done j + phaseWr (Function.update s.phase i Phase.locked j))
        have hsum : (∑ j, (s.done j + phaseWr (Function.update s.phase i Phase.locked j)))
            = ∑ j, (s.done j + phaseWr (s.phase j)) :=
          Finset.sum_congr rfl (fun j _ => by
            by_cases hij : j = i
            · subst hij; rw [Function.update_same, h1]; simp [phaseWr]
            · rw [Function.update_noteq hij])
        rw [hsum]; exact hcount
  | read i s h1 =>
      refine ⟨?_, ?_, ?_⟩
      · intro j hj
        replace hj : Function.update s.phase i (Phase.loaded s.counter) j ≠ Phase.idle := hj
        show s.owner = some j
        by_cases hij : j = i
        · subst hij
          exact hown j (by rw [h1]; intro hh; exact Phase.noConfusion hh)
        · rw [Function.update_noteq hij] at hj
          exact hown j hj
      · intro j v hjv
        replace hjv : Function.update s.phase i (Phase.loaded s.counter) j = Phase.loaded v := hjv
        show v = s.counter
        by_cases hij : j = i
        · subst hij
          rw [Function.update_same] at hjv
          injection hjv with hv
          exact hv.symm
        · rw [Function.update_noteq hij] at hjv
          exact hload j v hjv
      · show s.counter
            = ∑ j, (s.done j + phaseWr (Function.update s.phase i (Phase.loaded s.counter) j))
        have hsum : (∑ j, (s.done j + phaseWr (Function.update s.phase i (Phase.loaded s.counter) j)))
            = ∑ j, (s.done j + phaseWr (s.phase j)) :=
          Finset.sum_congr rfl (fun j _ => by
            by_cases hij : j = i
            · subst hij; rw [Function.update_same, h1]; simp [phaseWr]
            · rw [Function.update_noteq hij])
        rw [hsum]; exact hcount
  | write i v s h1 =>
      refine ⟨?_, ?_, ?_⟩
      · intro j hj
        replace hj : Function.update s.phase i Phase.written j ≠ Phase.idle := hj
        show s.owner = some j
        by_cases hij : j = i
        · subst hij
          exact hown j (by rw [h1]; intro hh; exact Phase.noConfusion hh)
        · rw [Function.update_noteq hij] at hj
          exact hown j hj
      · intro j w hjw
        replace hjw : Function.update s.phase i Phase.written j = Phase.loaded w := hjw
        show w = v + 1
        by_cases hij : j = i
        · subst hij
          rw [Function.update_same] at hjw
          exact Phase.noConfusion hjw
        · rw [Function.update_noteq hij] at hjw
          exfalso
          have hji : s.owner = some j :=
            hown j (by rw [hjw]; intro hh; exact Phase.noConfusion hh)
          have hii : s.owner = some i :=
            hown i (by rw [h1]; intro hh; exact Phase.noConfusion hh)
          rw [hii] at hji
          injection hji with he
          exact hij he.symm
      · show v + 1 = ∑ j, (s.done j + phaseWr (Function.update s.phase i Phase.written j))
        have hv : v = s.counter := hload i v h1
        have hFi : s.done i + phaseWr (s.phase i) = s.done i := by rw [h1]; simp [phaseWr]
        have hnew : (∑ j, (s.done j + phaseWr (Function.update s.phase i Phase.written j)))
            = ∑ j, Function.update (fun k => s.done k + phaseWr (s.phase k)) i (s.done i + 1) j :=
          Finset.sum_congr rfl (fun j _ => by
            by_cases hij : j = i
            · subst hij; rw [Function.update_same, Function.update_same]; simp [phaseWr]
            · rw [Function.update_noteq hij, Function.update_noteq hij])
        have hold := Finset.sum_eq_sum_diff_singleton_add (Finset.mem_univ i)
          (fun k => s.done k + phaseWr (s.phase k))
        simp only [hFi] at hold
        rw [hnew, Finset.sum_update_of_mem (Finset.mem_univ i)]
        show v + 1 = s.done i + 1 + ∑ x ∈ Finset.univ \ {i}, (s.done x + phaseWr (s.phase x))
        omega
  | unlock i s h1 =>
      refine ⟨?_, ?_, ?_⟩
      · intro j hj
        replace hj : Function.update s.phase i Phase.idle j ≠ Phase.idle := hj
        show (none : Option (Fin n)) = some j
        by_cases hij : j = i
        · subst hij
          exact absurd (Function.update_same j Phase.idle s.phase) hj
        · exfalso
          rw [Function.update_noteq hij] at hj
          have hji := hown j hj
          have hii : s.owner = some i :=
            hown i (by rw [h1]; intro hh; exact Phase.noConfusion hh)
          rw [hii] at hji
          injection hji with he
          exact hij he.symm
      · intro j w hjw
        replace hjw : Function.update s.phase i Phase.idle j = Phase.loaded w := hjw
        show w = s.counter
        by_cases hij : j = i
        · subst hij
          rw [Function.update_same] at hjw
          exact Phase.noConfusion hjw
        · rw [Function.update_noteq hij] at hjw
          exact hload j w hjw
      · show s.counter = ∑ j, (Function.update s.done i (s.done i + 1) j
            + phaseWr (Function.update s.phase i Phase.idle j))
        have hsum : (∑ j, (Function.update s.done i (s.done i + 1) j
              + phaseWr (Function.update s.phase i Phase.idle j)))
            = ∑ j, (s.done j + phaseWr (s.phase j)) :=
          Finset.sum_congr rfl (fun j _ => by
            by_cases hij : j = i
            · subst hij
              rw [Function.update_same, Function.update_same, h1]
              simp [phaseWr]
            · rw [Function.update_noteq hij, Function.update_noteq hij])
        rw [hsum]; exact hcount

/-- Helper for C1: every reachable state satisfies the invariant. -/
theorem cinv_reach {n M : Nat} {s : CState n} (h : CReach n M s) : CInv n s := by
  replace h : Relation.ReflTransGen (CStep n M) (initCState n) s := h
  induction h with
  | refl => exact cinv_init n
  | tail h1 h2 ih => exact cinv_step h2 ih

/-- C1: mutual exclusion.  In every reachable interleaving of n threads
each performing lock; read counter; write counter + 1; unlock up to M
times through the mutex, at most one thread is inside the critical
section at any instant, and when every thread has completed its M
iterations the shared counter is exactly n * M: no update is lost. -/
theorem spec_C1 (n M : Nat) (s : CState n) (h : CReach n M s) :
    (∀ i j : Fin n, s.phase i ≠ Phase.idle → s.phase j ≠ Phase.idle → i = j)
    ∧ (CTerminal n M s → s.counter = n * M) := by
  obtain ⟨hown, hload, hcount⟩ := cinv_reach h
  constructor
  · intro i j hi hj
    have hsi := hown i hi
    have hsj := hown j hj
    rw [hsi] at hsj
    injection hsj
  · intro ht
    have hM : ∀ j, s.done j + phaseWr (s.phase j) = M := by
      intro j
      rw [(ht j).1, (ht j).2]
      simp [phaseWr]
    rw [hcount]
    calc (∑ j, (s.done j + phaseWr (s.phase j)))
        = ∑ _j : Fin n, M := Finset.sum_congr rfl (fun j _ => hM j)
      _ = n * M := by simp [Finset.sum_const, Finset.card_univ, smul_eq_mul]

/-- Witness for C1: the concrete interleaving of one thread performing
one full iteration reaches the terminal state c1s4 with counter 1 * 1. -/
theorem spec_C1_witness :
    (∀ i j : Fin 1, c1s4.phase i ≠ Phase.idle → c1s4.phase j ≠ Phase.idle → i = j)
    ∧ c1s4.counter = 1 * 1 := by
  have st1 : CStep 1 1 c1s0 c1s1 := CStep.lock 0 c1s0 rfl (by decide) rfl
  have st2 : CStep 1 1 c1s1 c1s2 := CStep.read 0 c1s1 (by decide)
  have st3 : CStep 1 1 c1s2 c1s3 := CStep.write 0 c1s1.counter c1s2 (by decide)
  have st4 : CStep 1 1 c1s3 c1s4 := CStep.unlock 0 c1s3 (by decide)
  have hr : CReach 1 1 c1s4 :=
    Relation.ReflTransGen.tail (Relation.ReflTransGen.tail (Relation.ReflTransGen.tail
      (Relation.ReflTransGen.tail Relation.ReflTransGen.refl st1) st2) st3) st4
  have hterm : ∀ i : Fin 1, c1s4.phase i = Phase.idle ∧ c1s4.done i = 1 := by decide
  have h := spec_C1 1 1 c1s4 hr
  exact ⟨h.1, h.2 hterm⟩
